import Mathlib

/-!
Verification development for the weather-dashboard front-end scripts.

The repository holds three near-duplicate browser scripts: two variants
concatenated in src/static/app.js (called AppV1 and AppV2 below, in file
order) and one in src/unnamed/part_000 (called Part000 below).  The scripts
poll two JSON endpoints, format numeric and time values for display, and
create or update a fixed set of line charts.

JavaScript numbers are modelled by the exact rationals and NaN is a
distinguished value; null and undefined are distinguished values of the
JSVal type.  ToNumber coercion, the relational operators, Math.abs and
multiplication follow the ECMAScript rules on these values (null coerces
to 0, undefined and NaN taint every arithmetic result).  Number.toFixed is
modelled by round-half-away-from-zero on the absolute value followed by
decimal digit rendering, matching the ECMAScript ToFixed algorithm on the
exact values involved.  Host behaviour (Date parsing, locale rendering,
the wall clock) is packaged in a JsEnv record of oracle functions.  The
Promise.all join of the two fetches is modelled deterministically with the
summary response inspected first; the scripts render nothing unless both
responses succeed, so the claims below do not depend on that order.
-/

/-- Model of a JavaScript value that can sit in a numeric field of the
fetched JSON: a finite number, NaN, null, or undefined (missing field). -/
inductive JSVal where
  | vnum (q : ℚ)
  | vnan
  | vnull
  | vundef
deriving DecidableEq, Repr

/-- ECMAScript ToNumber on the values of JSVal, with none standing for NaN:
null coerces to 0, undefined coerces to NaN. -/
def toNumber : JSVal → Option ℚ
  | .vnum q => some q
  | .vnan => none
  | .vnull => some 0
  | .vundef => none

/-- JavaScript relational comparison a > b (false whenever a side is NaN). -/
def jsGt (a b : JSVal) : Bool :=
  match toNumber a, toNumber b with
  | some x, some y => decide (x > y)
  | _, _ => false

/-- JavaScript relational comparison a < b (false whenever a side is NaN). -/
def jsLt (a b : JSVal) : Bool :=
  match toNumber a, toNumber b with
  | some x, some y => decide (x < y)
  | _, _ => false

/-- JavaScript Math.abs applied to a JSVal (null coerces to 0, undefined to NaN). -/
def jsAbs (a : JSVal) : JSVal :=
  match toNumber a with
  | some x => .vnum |x|
  | none => .vnan

/-- JavaScript multiplication of a JSVal by a numeric constant, as in
presHpa * PRESSURE_HPA_TO_INHG (null coerces to 0, undefined to NaN). -/
def jsMul (a : JSVal) (c : ℚ) : JSVal :=
  match toNumber a with
  | some x => .vnum (x * c)
  | none => .vnan

/-- Decimal digit list of a natural number, most significant first, with an
explicit fuel argument so that the recursion is structural. -/
def natDigitsAux : ℕ → ℕ → List Char
  | 0, _ => []
  | fuel + 1, n =>
    if n < 10 then [Nat.digitChar n]
    else natDigitsAux fuel (n / 10) ++ [Nat.digitChar (n % 10)]

/-- Decimal digit list of a natural number, most significant first. -/
def natDigits (n : ℕ) : List Char := natDigitsAux (n + 1) n

/-- Exactly d decimal digits of n (zero padded on the left), most
significant first; this is the fractional block that toFixed prints. -/
def fracDigits : ℕ → ℕ → List Char
  | 0, _ => []
  | d + 1, n => fracDigits d (n / 10) ++ [Nat.digitChar (n % 10)]

/-- Trailing-zero stripper for the integer ToString algorithm: splits m
into (digits, z) with m = digits * 10 ^ z and digits not a multiple of 10
(or digits = m = 0); the fuel argument keeps the recursion structural. -/
def stripZerosAux : ℕ → ℕ → ℕ × ℕ
  | 0, m => (m, 0)
  | fuel + 1, m =>
    if m ≠ 0 ∧ m % 10 = 0 then
      let r := stripZerosAux fuel (m / 10)
      (r.1, r.2 + 1)
    else (m, 0)

/-- Trailing-zero split of a natural number. -/
def stripZeros (m : ℕ) : ℕ × ℕ := stripZerosAux m m

/-- ECMAScript ToString of an integer magnitude: plain decimal notation up
to 21 digits, and scientific notation beyond (first digit, optional point
and remaining digits, then e+ and the exponent), following the
Number::toString algorithm with k significant digits and exponent n. -/
def natToStringJs (m : ℕ) : String :=
  let dz := stripZeros m
  let dl := natDigits dz.1
  let n := dl.length + dz.2
  if n ≤ 21 then String.mk (natDigits m)
  else
    match dl with
    | [] => "0"
    | c :: rest =>
      String.mk (c :: ((if rest = [] then [] else '.' :: rest)
        ++ 'e' :: '+' :: natDigits (n - 1)))

/-- ECMAScript ToString of a number, as used by the large-magnitude branch
of toFixed: sign prefix and the integer rendering of the magnitude.  Every
IEEE double of magnitude at least 10 to the 21 is an integer, so taking
the floor is exact on all values that reach this function from the
program.  The rational model has no infinite value: a payload overflowing
to Infinity is outside the model, where the real toFixed would likewise
return its ToString form. -/
def jsNumToString (q : ℚ) : String :=
  let s := natToStringJs (⌊|q|⌋).toNat
  if q < 0 then String.mk ('-' :: s.data) else s

/-- Model of Number.prototype.toFixed from the scripts (ECMAScript
ToFixed): for magnitudes of at least 10 to the 21 the algorithm falls back
to ToString, giving scientific notation; below the threshold it rounds to
the nearest multiple of 10 to the power minus digits, ties away from zero
on the absolute value, rendered with exactly the requested digit count and
a leading minus sign for negative inputs. -/
def toFixed (q : ℚ) (d : ℕ) : String :=
  if 10 ^ 21 ≤ |q| then jsNumToString q
  else
    let n : ℕ := (⌊|q| * 10 ^ d + 1 / 2⌋).toNat
    let ip := n / 10 ^ d
    let fr := n % 10 ^ d
    let body := natDigits ip ++ (if d = 0 then [] else '.' :: fracDigits d fr)
    if q < 0 then String.mk ('-' :: body) else String.mk body

/-- Numeric value denoted by the fixed-point branch of toFixed. -/
def toFixedVal (q : ℚ) (d : ℕ) : ℚ :=
  (if q < 0 then -1 else 1) * ((⌊|q| * 10 ^ d + 1 / 2⌋ : ℤ) : ℚ) / 10 ^ d

/-- Embedding of fmtNum from all three scripts (the function is verbatim
identical in each): the em-dash placeholder for null, undefined and NaN,
and Number(x).toFixed(digits) for every other number. -/
def fmtNum (x : JSVal) (digits : ℕ) : String :=
  match x with
  | .vnull => "—"
  | .vundef => "—"
  | .vnan => "—"
  | .vnum q => toFixed q digits

/-- Number of characters a string carries after its decimal point
(zero when the string has no decimal point). -/
def decPlaces (s : String) : ℕ :=
  (s.data.dropWhile (fun c => c != '.')).length - 1

/-- Conversion factor from src/static/app.js (second script): 1 hPa = 0.02953 inHg. -/
def PRESSURE_HPA_TO_INHG : ℚ := 0.02953

/-- Host-environment oracles: locale rendering of an ISO instant
(Date.toLocaleString and the hour-minute Date.toLocaleTimeString form),
the wall clock Date.now in milliseconds, and timestamp parsing
new Date(x).getTime() on a possibly null field. -/
structure JsEnv where
  toLocaleString : String → String
  toLocaleTimeHM : String → String
  nowMs : ℚ
  parseMs : Option String → ℚ

/-- Embedding of fmtLocalTime (the AppV2 and Part000 form with the timeOnly
flag; AppV1 omits the flag and always renders the full form): the em-dash
placeholder for a missing or empty input, otherwise a locale rendering. -/
def fmtLocalTime (env : JsEnv) (isoZ : Option String) (timeOnly : Bool) : String :=
  match isoZ with
  | none => "—"
  | some s =>
    if s = "" then "—"
    else if timeOnly then env.toLocaleTimeHM s else env.toLocaleString s

/-- Embedding of the direction ternary from the refresh functions:
delta > 0 gives "up", delta < 0 gives "down", otherwise "flat". -/
def direction (delta : JSVal) : String :=
  if jsGt delta (JSVal.vnum 0) then "up"
  else if jsLt delta (JSVal.vnum 0) then "down" else "flat"

/-- A thrown JavaScript Error value, identified by its message string. -/
structure JsError where
  message : String
deriving DecidableEq, Repr

/-- An HTTP response as seen through the fetch API: status code, the body
text, and the JSON decoding of the body (none when r.json() would reject,
modelling a malformed payload). -/
structure HttpResponse (α : Type) where
  status : ℕ
  bodyText : String
  json : Option α

/-- The fetch API field r.ok: status in the inclusive range 200 to 299. -/
def respOk {α : Type} (r : HttpResponse α) : Bool :=
  decide (200 ≤ r.status ∧ r.status < 300)

/-- Message of the error thrown by getJSON on a non-success status. -/
def httpErrMsg {α : Type} (r : HttpResponse α) : String :=
  "HTTP " ++ toString r.status ++ ": " ++ r.bodyText

/-- Embedding of getJSON from all three scripts: on a non-success status it
throws an Error carrying the status code and body text; otherwise it
resolves the JSON body, rejecting when decoding fails. -/
def getJSON {α : Type} (r : HttpResponse α) : Except JsError α :=
  if respOk r then
    match r.json with
    | some v => Except.ok v
    | none => Except.error { message := "Unexpected end of JSON input" }
  else
    Except.error { message := httpErrMsg r }

/-- One timestamped sample as delivered by the endpoints. -/
structure Reading where
  ts_utc : Option String
  temp_f : JSVal
  humidity_pct : JSVal
  pressure_hpa : JSVal
deriving DecidableEq, Repr

/-- The /api/summary payload. -/
structure Summary where
  current : Reading
  temp_24h_high : Reading
  temp_24h_low : Reading
  pressure_change_hpa : JSVal
  pressure_24h_reference : Reading
deriving DecidableEq, Repr

/-- A chart handle: the construction parameters fixed by buildLineChart
(mount point, label, time-axis unit) plus the mutable point array and a
redraw counter that chart.update() bumps. -/
structure Chart where
  ctx : String
  label : String
  timeUnit : String
  data : List (Option String × JSVal)
  updates : ℕ
deriving DecidableEq, Repr

/-- Embedding of buildLineChart: constructs a line chart over the given
canvas with the given points, label and time-axis unit. -/
def buildLineChart (ctx : String) (dataPoints : List (Option String × JSVal))
    (yLabel : String) (timeUnit : String) : Chart :=
  { ctx := ctx, label := yLabel, timeUnit := timeUnit, data := dataPoints, updates := 0 }

/-- Mutation step from the else branches of the chart code:
chart.data.datasets[0].data = dataPoints followed by chart.update(). -/
def chartUpdate (c : Chart) (dataPoints : List (Option String × JSVal)) : Chart :=
  { c with data := dataPoints, updates := c.updates + 1 }

/-- The 7-day temperature points: ts.map of (ts_utc, temp_f). -/
def tempPoints (ts : List Reading) : List (Option String × JSVal) :=
  ts.map fun p => (p.ts_utc, p.temp_f)

/-- The 7-day humidity points: ts.map of (ts_utc, humidity_pct). -/
def humPoints (ts : List Reading) : List (Option String × JSVal) :=
  ts.map fun p => (p.ts_utc, p.humidity_pct)

/-- The 7-day pressure points: ts.map of (ts_utc, pressure_hpa). -/
def presPoints (ts : List Reading) : List (Option String × JSVal) :=
  ts.map fun p => (p.ts_utc, p.pressure_hpa)

/-- The 24-hour subset of the timeseries: samples whose parsed timestamp is
at or after Date.now() minus 24 hours in milliseconds. -/
def ts24 (env : JsEnv) (ts : List Reading) : List Reading :=
  ts.filter fun p => env.nowMs - 24 * 60 * 60 * 1000 ≤ env.parseMs p.ts_utc

/-- The 24-hour temperature points. -/
def temp24Points (env : JsEnv) (ts : List Reading) : List (Option String × JSVal) :=
  (ts24 env ts).map fun p => (p.ts_utc, p.temp_f)

/-- The 24-hour pressure points. -/
def pres24Points (env : JsEnv) (ts : List Reading) : List (Option String × JSVal) :=
  (ts24 env ts).map fun p => (p.ts_utc, p.pressure_hpa)

/-- The derived inches-of-mercury value: presHpa * PRESSURE_HPA_TO_INHG. -/
def presInHg (presHpa : JSVal) : JSVal :=
  jsMul presHpa PRESSURE_HPA_TO_INHG

namespace AppV2

/-- The KPI text fields the AppV2 refresh writes into the page. -/
structure Kpis where
  curTemp : String
  curHum : String
  curPres : String
  tHigh : String
  tHighTs : String
  tLow : String
  tLowTs : String
  presDelta : String
  lastUpdated : String
deriving DecidableEq, Repr

/-- Embedding of the KPI section of the AppV2 refresh (src/static/app.js,
second script, lines 218 to 258): one-decimal formatting, the derived
inches-of-mercury rendering of the current pressure, the strict null
checks on the 24-hour extremes, and the directional pressure delta with
its own converted magnitude. -/
def renderKpis (env : JsEnv) (summary : Summary) : Kpis :=
  let presHpa := summary.current.pressure_hpa
  let presInHgVal := presInHg presHpa
  let delta := summary.pressure_change_hpa
  let deltaInHg := jsMul delta PRESSURE_HPA_TO_INHG
  { curTemp := fmtNum summary.current.temp_f 1 ++ " °F"
  , curHum := fmtNum summary.current.humidity_pct 1 ++ " %"
  , curPres := fmtNum presHpa 1 ++ " hPa / " ++ fmtNum presInHgVal 1 ++ " inHg"
  , tHigh :=
      if summary.temp_24h_high.temp_f = JSVal.vnull then "—"
      else fmtNum summary.temp_24h_high.temp_f 1 ++ " °F"
  , tHighTs := "@ " ++ fmtLocalTime env summary.temp_24h_high.ts_utc true
  , tLow :=
      if summary.temp_24h_low.temp_f = JSVal.vnull then "—"
      else fmtNum summary.temp_24h_low.temp_f 1 ++ " °F"
  , tLowTs := "@ " ++ fmtLocalTime env summary.temp_24h_low.ts_utc true
  , presDelta :=
      direction delta ++ " " ++ fmtNum (jsAbs delta) 1 ++ " hPa / "
        ++ fmtNum (jsAbs deltaInHg) 1 ++ " inHg"
  , lastUpdated := "Last updated: " ++ fmtLocalTime env summary.current.ts_utc false }

/-- The module-level chart handles of AppV2: the 24-hour pair
(temp24Chart, pres24Chart) and the 7-day triple
(tempChart, humChart, presChart); none models an undefined handle. -/
structure ChartState where
  charts24 : Option (Chart × Chart)
  charts7 : Option (Chart × Chart × Chart)
deriving DecidableEq, Repr

/-- Embedding of the chart section of the AppV2 refresh (lines 260 to 317):
on an undefined handle group the charts are built with their canvas, label
and time-axis unit; otherwise each existing chart has its point array
replaced and its update() triggered. -/
def renderCharts (env : JsEnv) (ts : List Reading) (st : ChartState) : ChartState :=
  let c24 :=
    match st.charts24 with
    | none =>
      (buildLineChart "chartTemp24" (temp24Points env ts) "Temp (°F)" "hour",
       buildLineChart "chartPres24" (pres24Points env ts) "Pressure (hPa)" "hour")
    | some (t, p) =>
      (chartUpdate t (temp24Points env ts), chartUpdate p (pres24Points env ts))
  let c7 :=
    match st.charts7 with
    | none =>
      (buildLineChart "chartTemp" (tempPoints ts) "Temp (°F)" "day",
       buildLineChart "chartHum" (humPoints ts) "Humidity (%)" "day",
       buildLineChart "chartPres" (presPoints ts) "Pressure (hPa)" "day")
    | some (t, h, p) =>
      (chartUpdate t (tempPoints ts), chartUpdate h (humPoints ts),
       chartUpdate p (presPoints ts))
  { charts24 := some c24, charts7 := some c7 }

/-- Embedding of the AppV2 refresh: both fetches must resolve (the
Promise.all join), then the KPI texts are written and the charts are
created or updated; any fetch failure aborts the cycle with that error. -/
def refresh (env : JsEnv) (rs : HttpResponse Summary) (rt : HttpResponse (List Reading))
    (st : ChartState) : Except JsError (Kpis × ChartState) :=
  match getJSON rs with
  | .error e => .error e
  | .ok summary =>
    match getJSON rt with
    | .error e => .error e
    | .ok ts => .ok (renderKpis env summary, renderCharts env ts st)

/-- The inputs one refresh cycle consumes: the host oracles and the two
endpoint responses. -/
structure CycleEnv where
  js : JsEnv
  summaryResp : HttpResponse Summary
  tsResp : HttpResponse (List Reading)

/-- One refresh cycle against the current chart handles. -/
def runCycle (e : CycleEnv) (st : ChartState) : Except JsError (Kpis × ChartState) :=
  refresh e.js e.summaryResp e.tsResp st

/-- Page state the driver mutates: the status banner text, the KPI texts
currently in the DOM, the chart handles, and whether setInterval has been
installed. -/
structure Page where
  lastUpdated : String
  kpis : Option Kpis
  charts : ChartState
  intervalInstalled : Bool
deriving DecidableEq, Repr

/-- Page state on load: empty banner, no KPI texts, undefined chart
handles, no recurring timer. -/
def initialPage : Page :=
  { lastUpdated := "", kpis := none
  , charts := { charts24 := none, charts7 := none }, intervalInstalled := false }

/-- Embedding of the driver IIFE, first cycle: await refresh(); on success
install the 60-second interval; on error, log and write the error message
into the status banner — the interval is then never installed. -/
def firstLoad (e : CycleEnv) (p : Page) : Page :=
  match runCycle e p.charts with
  | .ok (k, cs) =>
    { lastUpdated := k.lastUpdated, kpis := some k, charts := cs, intervalInstalled := true }
  | .error err =>
    { p with lastUpdated := "Error loading data: " ++ err.message }

/-- Embedding of one interval tick: refresh().catch(console.error) — a
failed cycle only logs, leaving the whole page state untouched; nothing
runs when the interval was never installed. -/
def timerTick (e : CycleEnv) (p : Page) : Page :=
  if p.intervalInstalled then
    match runCycle e p.charts with
    | .ok (k, cs) =>
      { p with lastUpdated := k.lastUpdated, kpis := some k, charts := cs }
    | .error _ => p
  else p

/-- The ticks after the first cycle, in order. -/
def runTicks (p : Page) (es : List CycleEnv) : Page :=
  es.foldl (fun q e => timerTick e q) p

end AppV2

namespace Part000

/-- The curTemp line of src/unnamed/part_000 (lines 67 to 68): one decimal. -/
def curTempText (summary : Summary) : String :=
  fmtNum summary.current.temp_f 1 ++ " °F"

/-- The curHum line of src/unnamed/part_000 (lines 69 to 70): one decimal. -/
def curHumText (summary : Summary) : String :=
  fmtNum summary.current.humidity_pct 1 ++ " %"

/-- The curPres lines of src/unnamed/part_000 (lines 71 to 74): the inline
0.02953 conversion and both units on one line. -/
def curPresText (summary : Summary) : String :=
  let presHpa := summary.current.pressure_hpa
  fmtNum presHpa 1 ++ " hPa / " ++ fmtNum (jsMul presHpa (0.02953 : ℚ)) 1 ++ " inHg"

/-- The presDelta lines of src/unnamed/part_000 (lines 96 to 99): direction
word and unsigned one-decimal magnitude, hectopascals only. -/
def presDeltaText (summary : Summary) : String :=
  let delta := summary.pressure_change_hpa
  direction delta ++ " " ++ fmtNum (jsAbs delta) 1 ++ " hPa"

end Part000

namespace AppV1

/-- The curTemp line of the first src/static/app.js script (lines 65 to
66): two decimals. -/
def curTempText (summary : Summary) : String :=
  fmtNum summary.current.temp_f 2 ++ " °F"

/-- The curHum line of the first src/static/app.js script (lines 67 to
68): two decimals. -/
def curHumText (summary : Summary) : String :=
  fmtNum summary.current.humidity_pct 2 ++ " %"

/-- The presDelta lines of the first src/static/app.js script (lines 94 to
98): direction word and unsigned two-decimal magnitude. -/
def presDeltaText (summary : Summary) : String :=
  let delta := summary.pressure_change_hpa
  direction delta ++ " " ++ fmtNum (jsAbs delta) 2 ++ " hPa"

end AppV1

/-- Construction identity of a chart handle: same canvas, label and
time-axis unit — the fields only buildLineChart ever sets. -/
def sameBuild (a b : Chart) : Prop :=
  a.ctx = b.ctx ∧ a.label = b.label ∧ a.timeUnit = b.timeUnit

/-- Chart handles survive from st to st1: every defined handle group is
still defined and each chart kept its construction identity. -/
def preservedFrom (st st1 : AppV2.ChartState) : Prop :=
  (∀ t p, st.charts24 = some (t, p) →
    ∃ t1 p1, st1.charts24 = some (t1, p1) ∧ sameBuild t t1 ∧ sameBuild p p1) ∧
  (∀ a b c, st.charts7 = some (a, b, c) →
    ∃ a1 b1 c1, st1.charts7 = some (a1, b1, c1) ∧
      sameBuild a a1 ∧ sameBuild b b1 ∧ sameBuild c c1)

/-- Concrete host oracles for witnesses: identity locale renderings, the
clock at zero, all timestamps parsing to zero. -/
def env0 : JsEnv :=
  { toLocaleString := fun s => s, toLocaleTimeHM := fun s => s
  , nowMs := 0, parseMs := fun _ => 0 }

/-- A fully populated sample reading. -/
def baseReading : Reading :=
  { ts_utc := some "2024-01-01T12:00:00Z", temp_f := .vnum 70
  , humidity_pct := .vnum 50, pressure_hpa := .vnum 1000 }

/-- A fully populated sample summary. -/
def baseSummary : Summary :=
  { current := baseReading, temp_24h_high := baseReading, temp_24h_low := baseReading
  , pressure_change_hpa := .vnum 1, pressure_24h_reference := baseReading }

/-- The summary of the end-to-end scenario of C8: current readings
72.34 °F, 45.6 percent, 1015.2 hPa. -/
def sample8 : Summary :=
  { baseSummary with current :=
      { baseReading with
        temp_f := .vnum 72.34
        humidity_pct := .vnum 45.6
        pressure_hpa := .vnum 1015.2 } }

/-- The summary of the end-to-end scenario of C9: pressure change of
minus 2.5 hPa. -/
def sample9 : Summary :=
  { baseSummary with pressure_change_hpa := .vnum (-2.5) }

/-- A summary whose pressure change is NaN. -/
def sampleNaN : Summary :=
  { baseSummary with pressure_change_hpa := .vnan }

/-- A summary whose current pressure is null. -/
def sampleNullPres : Summary :=
  { baseSummary with current := { baseReading with pressure_hpa := .vnull } }

/-- A successful /api/summary response. -/
def okSummaryResp : HttpResponse Summary :=
  { status := 200, bodyText := "", json := some baseSummary }

/-- A successful, empty /api/timeseries response. -/
def okTsResp : HttpResponse (List Reading) :=
  { status := 200, bodyText := "", json := some [] }

/-- A 500 /api/summary response. -/
def resp500 : HttpResponse Summary :=
  { status := 500, bodyText := "boom", json := none }

/-- A cycle in which both fetches succeed. -/
def envOk : AppV2.CycleEnv :=
  { js := env0, summaryResp := okSummaryResp, tsResp := okTsResp }

/-- A cycle in which /api/summary returns HTTP 500. -/
def envBad : AppV2.CycleEnv :=
  { js := env0, summaryResp := resp500, tsResp := okTsResp }

/-- The page after one successful first cycle. -/
def pageAfterFirst : AppV2.Page :=
  AppV2.firstLoad envOk AppV2.initialPage

/-- Chart state produced by the first rendering cycle from undefined
handles, used to witness the mutation contract. -/
def stInit : AppV2.ChartState :=
  AppV2.renderCharts env0 [] { charts24 := none, charts7 := none }

/-! Helper lemmas about the digit rendering. -/

theorem natDigitsAux_mem (fuel : ℕ) :
    ∀ n c, c ∈ natDigitsAux fuel n → ∃ k, k < 10 ∧ c = Nat.digitChar k := by
  induction fuel with
  | zero => intro n c hc; simp [natDigitsAux] at hc
  | succ f ih =>
    intro n c hc
    simp only [natDigitsAux] at hc
    by_cases h10 : n < 10
    · rw [if_pos h10] at hc
      simp only [List.mem_singleton] at hc
      exact ⟨n, h10, hc⟩
    · rw [if_neg h10] at hc
      rcases List.mem_append.mp hc with h | h
      · exact ih _ _ h
      · simp only [List.mem_singleton] at h
        exact ⟨n % 10, Nat.mod_lt _ (by norm_num), h⟩

theorem natDigits_mem (n : ℕ) :
    ∀ c ∈ natDigits n, ∃ k, k < 10 ∧ c = Nat.digitChar k :=
  fun c hc => natDigitsAux_mem (n + 1) n c hc

theorem natDigitsAux_head (fuel : ℕ) :
    ∀ n, 1 ≤ fuel → ∃ k l, natDigitsAux fuel n = Nat.digitChar k :: l ∧ k < 10 := by
  induction fuel with
  | zero => intro n h; omega
  | succ f ih =>
    intro n _
    by_cases h10 : n < 10
    · exact ⟨n, [], by simp [natDigitsAux, h10], h10⟩
    · rcases Nat.eq_zero_or_pos f with hf | hf
      · subst hf
        exact ⟨n % 10, [], by simp [natDigitsAux, h10], Nat.mod_lt _ (by norm_num)⟩
      · obtain ⟨k, l, hkl, hk⟩ := ih (n / 10) hf
        exact ⟨k, l ++ [Nat.digitChar (n % 10)], by simp [natDigitsAux, h10, hkl], hk⟩

theorem natDigits_head (n : ℕ) :
    ∃ k l, natDigits n = Nat.digitChar k :: l ∧ k < 10 :=
  natDigitsAux_head (n + 1) n (by omega)

theorem fracDigits_length (d : ℕ) : ∀ n, (fracDigits d n).length = d := by
  induction d with
  | zero => intro n; rfl
  | succ e ih => intro n; simp [fracDigits, ih]

theorem fracDigits_mem (d : ℕ) :
    ∀ n c, c ∈ fracDigits d n → ∃ k, k < 10 ∧ c = Nat.digitChar k := by
  induction d with
  | zero => intro n c hc; simp [fracDigits] at hc
  | succ e ih =>
    intro n c hc
    simp only [fracDigits] at hc
    rcases List.mem_append.mp hc with h | h
    · exact ih _ _ h
    · simp only [List.mem_singleton] at h
      exact ⟨n % 10, Nat.mod_lt _ (by norm_num), h⟩

theorem digitChar_facts :
    ∀ k, k < 10 → Nat.digitChar k ≠ '—' ∧ Nat.digitChar k ≠ '.' ∧ Nat.digitChar k ≠ 'N' := by
  intro k hk
  interval_cases k <;> exact ⟨by decide, by decide, by decide⟩

theorem natDigits_nodot (n : ℕ) : ∀ c ∈ natDigits n, (c != '.') = true := by
  intro c hc
  obtain ⟨k, hk, rfl⟩ := natDigits_mem n c hc
  simpa using (digitChar_facts k hk).2.1

theorem dropWhile_append_nodot (l1 l2 : List Char)
    (h : ∀ c ∈ l1, (c != '.') = true) :
    List.dropWhile (fun c => c != '.') (l1 ++ l2)
      = List.dropWhile (fun c => c != '.') l2 := by
  induction l1 with
  | nil => rfl
  | cons a t ih =>
    have ha := h a (List.mem_cons_self a t)
    simp only [List.cons_append, List.dropWhile_cons, ha, if_true]
    exact ih fun c hc => h c (List.mem_cons_of_mem a hc)

theorem decPlaces_body (ipn d fr : ℕ) :
    (List.dropWhile (fun c => c != '.')
      (natDigits ipn ++ (if d = 0 then [] else '.' :: fracDigits d fr))).length - 1 = d := by
  rw [dropWhile_append_nodot _ _ (natDigits_nodot ipn)]
  cases d with
  | zero => rfl
  | succ e =>
    simp only [Nat.succ_ne_zero, if_false, List.dropWhile_cons]
    norm_num [fracDigits_length]

theorem natToStringJs_chars (m : ℕ) :
    ∀ c ∈ (natToStringJs m).data,
      c = '.' ∨ c = 'e' ∨ c = '+' ∨ ∃ k, k < 10 ∧ c = Nat.digitChar k := by
  intro c hc
  simp only [natToStringJs] at hc
  by_cases hn : (natDigits (stripZeros m).1).length + (stripZeros m).2 ≤ 21
  · rw [if_pos hn] at hc
    exact Or.inr (Or.inr (Or.inr (natDigits_mem m c hc)))
  · rw [if_neg hn] at hc
    cases hdl : natDigits (stripZeros m).1 with
    | nil =>
      rw [hdl] at hc
      rw [show ("0" : String).data = ['0'] from rfl] at hc
      simp only [List.mem_singleton] at hc
      exact Or.inr (Or.inr (Or.inr ⟨0, by norm_num, hc.trans (by decide)⟩))
    | cons c0 rest =>
      rw [hdl] at hc
      rcases List.mem_cons.mp hc with h | h
      · refine Or.inr (Or.inr (Or.inr (natDigits_mem (stripZeros m).1 c ?_)))
        rw [hdl, h]
        exact List.mem_cons_self _ _
      · rcases List.mem_append.mp h with h1 | h1
        · by_cases hr : rest = []
          · rw [if_pos hr] at h1
            simp at h1
          · rw [if_neg hr] at h1
            rcases List.mem_cons.mp h1 with h2 | h2
            · exact Or.inl h2
            · refine Or.inr (Or.inr (Or.inr (natDigits_mem (stripZeros m).1 c ?_)))
              rw [hdl]
              exact List.mem_cons_of_mem _ h2
        · rcases List.mem_cons.mp h1 with h2 | h2
          · exact Or.inr (Or.inl h2)
          · rcases List.mem_cons.mp h2 with h3 | h3
            · exact Or.inr (Or.inr (Or.inl h3))
            · exact Or.inr (Or.inr (Or.inr (natDigits_mem _ c h3)))

theorem jsNumToString_chars (q : ℚ) :
    ∀ c ∈ (jsNumToString q).data,
      c = '-' ∨ c = '.' ∨ c = 'e' ∨ c = '+' ∨ ∃ k, k < 10 ∧ c = Nat.digitChar k := by
  intro c hc
  simp only [jsNumToString] at hc
  by_cases hq : q < 0
  · rw [if_pos hq] at hc
    rcases List.mem_cons.mp hc with h | h
    · exact Or.inl h
    · rcases natToStringJs_chars _ c h with h1 | h1 | h1 | h1
      · exact Or.inr (Or.inl h1)
      · exact Or.inr (Or.inr (Or.inl h1))
      · exact Or.inr (Or.inr (Or.inr (Or.inl h1)))
      · exact Or.inr (Or.inr (Or.inr (Or.inr h1)))
  · rw [if_neg hq] at hc
    rcases natToStringJs_chars _ c hc with h1 | h1 | h1 | h1
    · exact Or.inr (Or.inl h1)
    · exact Or.inr (Or.inr (Or.inl h1))
    · exact Or.inr (Or.inr (Or.inr (Or.inl h1)))
    · exact Or.inr (Or.inr (Or.inr (Or.inr h1)))

theorem jsNumToString_ne_dash (q : ℚ) : jsNumToString q ≠ "—" := by
  intro h
  have hm : '—' ∈ (jsNumToString q).data := by
    rw [h]
    decide
  rcases jsNumToString_chars q '—' hm with h1 | h1 | h1 | h1 | ⟨k, hk, h1⟩
  · exact absurd h1 (by decide)
  · exact absurd h1 (by decide)
  · exact absurd h1 (by decide)
  · exact absurd h1 (by decide)
  · exact (digitChar_facts k hk).1 h1.symm

theorem toFixed_ne_dash (q : ℚ) (d : ℕ) : toFixed q d ≠ "—" := by
  simp only [toFixed]
  by_cases h21 : (10 : ℚ) ^ 21 ≤ |q|
  · rw [if_pos h21]
    exact jsNumToString_ne_dash q
  · rw [if_neg h21]
    obtain ⟨k, l, hkl, hk⟩ := natDigits_head ((⌊|q| * 10 ^ d + 1 / 2⌋).toNat / 10 ^ d)
    intro h
    by_cases hq : q < 0
    · rw [if_pos hq] at h
      have hd := congrArg String.data h
      obtain ⟨h1, -⟩ := List.cons.inj hd
      exact absurd h1 (by decide)
    · rw [if_neg hq] at h
      have hd := congrArg String.data h
      rw [hkl, List.cons_append] at hd
      obtain ⟨h1, -⟩ := List.cons.inj hd
      exact absurd h1 (digitChar_facts k hk).1

theorem decPlaces_toFixed (q : ℚ) (d : ℕ) (h21 : |q| < 10 ^ 21) :
    decPlaces (toFixed q d) = d := by
  simp only [toFixed, decPlaces]
  rw [if_neg (not_le.mpr h21)]
  by_cases hq : q < 0
  · rw [if_pos hq]
    show (List.dropWhile (fun c => c != '.') ('-' :: _)).length - 1 = d
    rw [List.dropWhile_cons]
    simp only [show (('-' : Char) != '.') = true from rfl, if_true]
    exact decPlaces_body _ _ _
  · rw [if_neg hq]
    exact decPlaces_body _ _ _

theorem toFixedVal_close (q : ℚ) (d : ℕ) : |toFixedVal q d - q| ≤ 1 / (2 * 10 ^ d) := by
  have hEpos : (0 : ℚ) < 10 ^ d := by positivity
  have h1 : ((⌊|q| * 10 ^ d + 1 / 2⌋ : ℤ) : ℚ) ≤ |q| * 10 ^ d + 1 / 2 :=
    Int.floor_le _
  have h2 : |q| * 10 ^ d + 1 / 2 - 1 < ((⌊|q| * 10 ^ d + 1 / 2⌋ : ℤ) : ℚ) :=
    Int.sub_one_lt_floor _
  have h3 : abs (((⌊|q| * 10 ^ d + 1 / 2⌋ : ℤ) : ℚ) - |q| * 10 ^ d) ≤ 1 / 2 := by
    rw [abs_le]
    constructor
    · linarith
    · linarith
  have key : abs (((⌊|q| * 10 ^ d + 1 / 2⌋ : ℤ) : ℚ) / 10 ^ d - |q|) ≤ 1 / (2 * 10 ^ d) := by
    have h4 : ((⌊|q| * 10 ^ d + 1 / 2⌋ : ℤ) : ℚ) / 10 ^ d - |q|
        = (((⌊|q| * 10 ^ d + 1 / 2⌋ : ℤ) : ℚ) - |q| * 10 ^ d) / 10 ^ d := by
      field_simp
      ring
    rw [h4, abs_div, abs_of_pos hEpos, div_le_div_iff₀ hEpos (by positivity)]
    have h5 := mul_le_mul_of_nonneg_right h3 (le_of_lt hEpos)
    linarith
  by_cases hq : q < 0
  · have hrw : toFixedVal q d - q
        = -(((⌊|q| * 10 ^ d + 1 / 2⌋ : ℤ) : ℚ) / 10 ^ d - |q|) := by
      simp only [toFixedVal, if_pos hq]
      rw [abs_of_neg hq]
      ring
    rw [hrw, abs_neg]
    exact key
  · have hrw : toFixedVal q d - q
        = ((⌊|q| * 10 ^ d + 1 / 2⌋ : ℤ) : ℚ) / 10 ^ d - |q| := by
      simp only [toFixedVal, if_neg hq]
      rw [abs_of_nonneg (not_lt.mp hq)]
      ring
    rw [hrw]
    exact key

/-- C1 counterexample: at 10 to the 21 the formatter leaves fixed-point
notation: ECMAScript toFixed falls back to ToString there, so
fmtNum(1e21, 1) is "1e+21", a scientific-notation string with no digits
after a decimal point instead of the claimed one-digit fixed-point
rendering. -/
theorem fmtNum_1e21_scientific :
    fmtNum (JSVal.vnum ((10 : ℚ) ^ 21)) 1 = "1e+21" ∧
    decPlaces (fmtNum (JSVal.vnum ((10 : ℚ) ^ 21)) 1) ≠ 1 := by
  have habs : |(10 : ℚ) ^ 21| = (10 : ℚ) ^ 21 := abs_of_nonneg (by positivity)
  have hcond : (10 : ℚ) ^ 21 ≤ |(10 : ℚ) ^ 21| := le_of_eq habs.symm
  have hneg : ¬ ((10 : ℚ) ^ 21 < 0) := not_lt.mpr (by positivity)
  have hfl : ⌊|(10 : ℚ) ^ 21|⌋ = ((10 ^ 21 : ℕ) : ℤ) := by
    rw [habs, show ((10 : ℚ) ^ 21) = (((10 ^ 21 : ℕ) : ℤ) : ℚ) by push_cast; ring]
    exact Int.floor_intCast _
  have hstr : toFixed ((10 : ℚ) ^ 21) 1 = natToStringJs (10 ^ 21) := by
    simp only [toFixed, if_pos hcond, jsNumToString, if_neg hneg, hfl, Int.toNat_natCast]
  have hfinal : natToStringJs (10 ^ 21) = "1e+21" := by decide
  constructor
  · show toFixed ((10 : ℚ) ^ 21) 1 = "1e+21"
    rw [hstr, hfinal]
  · show decPlaces (toFixed ((10 : ℚ) ^ 21) 1) ≠ 1
    rw [hstr, hfinal]
    decide

/-- C1 amended: fmtNum returns the placeholder exactly for null, undefined
and NaN; every other numeric input is rendered by toFixed, which below the
ECMAScript ToString threshold of 10 to the 21 in magnitude produces the
fixed-point string with exactly d digits after the decimal point whose
denoted value is within half an ulp of the input, and at or above the
threshold returns the ToString (scientific-notation) form instead. -/
theorem fmtNum_placeholder_iff_bounded_fixed_point :
    ∀ (x : JSVal) (d : ℕ),
      (fmtNum x d = "—" ↔ x = JSVal.vnull ∨ x = JSVal.vundef ∨ x = JSVal.vnan) ∧
      ∀ q : ℚ, fmtNum (JSVal.vnum q) d = toFixed q d ∧
        (|q| < 10 ^ 21 →
          decPlaces (fmtNum (JSVal.vnum q) d) = d ∧
          |toFixedVal q d - q| ≤ 1 / (2 * 10 ^ d)) ∧
        (10 ^ 21 ≤ |q| → fmtNum (JSVal.vnum q) d = jsNumToString q) := by
  intro x d
  constructor
  · constructor
    · intro h
      cases x with
      | vnum q => exact absurd h (toFixed_ne_dash q d)
      | vnan => right; right; rfl
      | vnull => left; rfl
      | vundef => right; left; rfl
    · rintro (rfl | rfl | rfl) <;> rfl
  · intro q
    refine ⟨rfl, fun h21 => ⟨decPlaces_toFixed q d h21, toFixedVal_close q d⟩,
      fun h21 => ?_⟩
    show toFixed q d = jsNumToString q
    simp only [toFixed, if_pos h21]

/-- Witness for the amended C1: one digit after the point at 72.34, and
the ToString fallback at 10 to the 21. -/
theorem fmtNum_placeholder_iff_bounded_fixed_point_witness :
    decPlaces (fmtNum (JSVal.vnum (72.34 : ℚ)) 1) = 1 ∧
    fmtNum (JSVal.vnum ((10 : ℚ) ^ 21)) 1 = jsNumToString ((10 : ℚ) ^ 21) := by
  have h1 := ((fmtNum_placeholder_iff_bounded_fixed_point (JSVal.vnum (72.34 : ℚ)) 1).2
    (72.34 : ℚ)).2.1
    (by rw [abs_of_nonneg (by norm_num : (0 : ℚ) ≤ 72.34)]; norm_num)
  have h2 := ((fmtNum_placeholder_iff_bounded_fixed_point
    (JSVal.vnum ((10 : ℚ) ^ 21)) 1).2 ((10 : ℚ) ^ 21)).2.2
    (le_of_eq (abs_of_nonneg (by positivity : (0 : ℚ) ≤ (10 : ℚ) ^ 21)).symm)
  exact ⟨h1.1, h2⟩

/-! Evaluation bridges for concrete renderings. -/

theorem toFixed_eval (q : ℚ) (d n : ℕ) (h0 : ¬ q < 0) (h21 : q < 10 ^ 21)
    (h : ⌊q * 10 ^ d + 1 / 2⌋ = (n : ℤ)) :
    toFixed q d
      = String.mk (natDigits (n / 10 ^ d)
          ++ (if d = 0 then [] else '.' :: fracDigits d (n % 10 ^ d))) := by
  have habs : |q| = q := abs_of_nonneg (not_lt.mp h0)
  have hc : ¬ (10 : ℚ) ^ 21 ≤ |q| := by
    rw [habs]
    exact not_le.mpr h21
  simp only [toFixed]
  rw [if_neg hc]
  simp only [habs, h, if_neg h0, Int.toNat_natCast]

theorem toFixed_eval_neg (q : ℚ) (d n : ℕ) (h0 : q < 0) (h21 : -q < 10 ^ 21)
    (h : ⌊-q * 10 ^ d + 1 / 2⌋ = (n : ℤ)) :
    toFixed q d
      = String.mk ('-' :: (natDigits (n / 10 ^ d)
          ++ (if d = 0 then [] else '.' :: fracDigits d (n % 10 ^ d)))) := by
  have habs : |q| = -q := abs_of_neg h0
  have hc : ¬ (10 : ℚ) ^ 21 ≤ |q| := by
    rw [habs]
    exact not_le.mpr h21
  simp only [toFixed]
  rw [if_neg hc]
  simp only [habs, h, if_pos h0, Int.toNat_natCast]

theorem toFixed_72_34_1 : toFixed (72.34 : ℚ) 1 = "72.3" := by
  rw [toFixed_eval (72.34 : ℚ) 1 723 (by norm_num) (by norm_num) (by norm_num)]
  decide

theorem toFixed_45_6_1 : toFixed (45.6 : ℚ) 1 = "45.6" := by
  rw [toFixed_eval (45.6 : ℚ) 1 456 (by norm_num) (by norm_num) (by norm_num)]
  decide

theorem toFixed_72_34_2 : toFixed (72.34 : ℚ) 2 = "72.34" := by
  rw [toFixed_eval (72.34 : ℚ) 2 7234 (by norm_num) (by norm_num) (by norm_num)]
  decide

theorem toFixed_45_6_2 : toFixed (45.6 : ℚ) 2 = "45.60" := by
  rw [toFixed_eval (45.6 : ℚ) 2 4560 (by norm_num) (by norm_num) (by norm_num)]
  decide

theorem toFixed_2_5_1 : toFixed (2.5 : ℚ) 1 = "2.5" := by
  rw [toFixed_eval (2.5 : ℚ) 1 25 (by norm_num) (by norm_num) (by norm_num)]
  decide

theorem toFixed_zero_1 : toFixed (0 : ℚ) 1 = "0.0" := by
  rw [toFixed_eval (0 : ℚ) 1 0 (by norm_num) (by norm_num) (by norm_num)]
  decide

theorem toFixed_2953_40000_1 : toFixed (2953 / 40000 : ℚ) 1 = "0.1" := by
  rw [toFixed_eval (2953 / 40000 : ℚ) 1 1 (by norm_num) (by norm_num) (by norm_num)]
  decide

theorem direction_num_pos (q : ℚ) (h : 0 < q) : direction (JSVal.vnum q) = "up" := by
  simp [direction, jsGt, toNumber, h]

theorem direction_num_neg (q : ℚ) (h : q < 0) : direction (JSVal.vnum q) = "down" := by
  have hng : ¬ (q > 0) := by linarith
  simp [direction, jsGt, jsLt, toNumber, h, hng]

theorem direction_num_zero : direction (JSVal.vnum 0) = "flat" := by
  simp [direction, jsGt, jsLt, toNumber]

theorem string_data_append (a b : String) : (a ++ b).data = a.data ++ b.data := rfl

theorem toFixed_chars (q : ℚ) (d : ℕ) :
    ∀ c ∈ (toFixed q d).data,
      c = '-' ∨ c = '.' ∨ c = 'e' ∨ c = '+' ∨ ∃ k, k < 10 ∧ c = Nat.digitChar k := by
  intro c hc
  simp only [toFixed] at hc
  by_cases h21 : (10 : ℚ) ^ 21 ≤ |q|
  · rw [if_pos h21] at hc
    exact jsNumToString_chars q c hc
  · rw [if_neg h21] at hc
    have hbody : ∀ m fr : ℕ,
        c ∈ natDigits m ++ (if d = 0 then [] else '.' :: fracDigits d fr) →
        c = '-' ∨ c = '.' ∨ c = 'e' ∨ c = '+' ∨ ∃ k, k < 10 ∧ c = Nat.digitChar k := by
      intro m fr hm
      rcases List.mem_append.mp hm with h | h
      · exact Or.inr (Or.inr (Or.inr (Or.inr (natDigits_mem m c h))))
      · by_cases hd0 : d = 0
        · rw [if_pos hd0] at h
          simp at h
        · rw [if_neg hd0] at h
          rcases List.mem_cons.mp h with h1 | h1
          · exact Or.inr (Or.inl h1)
          · exact Or.inr (Or.inr (Or.inr (Or.inr (fracDigits_mem d fr c h1))))
    by_cases hq : q < 0
    · rw [if_pos hq] at hc
      rcases List.mem_cons.mp hc with h | h
      · exact Or.inl h
      · exact hbody _ _ h
    · rw [if_neg hq] at hc
      exact hbody _ _ hc

theorem fmtNum_no_N (x : JSVal) (d : ℕ) : 'N' ∉ (fmtNum x d).data := by
  cases x with
  | vnum q =>
    intro hc
    rcases toFixed_chars q d 'N' hc with h | h | h | h | ⟨k, hk, h⟩
    · exact absurd h (by decide)
    · exact absurd h (by decide)
    · exact absurd h (by decide)
    · exact absurd h (by decide)
    · exact (digitChar_facts k hk).2.2 h.symm
  | vnan =>
    show 'N' ∉ ("—" : String).data
    decide
  | vnull =>
    show 'N' ∉ ("—" : String).data
    decide
  | vundef =>
    show 'N' ∉ ("—" : String).data
    decide

theorem no_N_append (a b : String) (ha : 'N' ∉ a.data) (hb : 'N' ∉ b.data) :
    'N' ∉ (a ++ b).data := by
  rw [string_data_append]
  intro hc
  rcases List.mem_append.mp hc with h | h
  · exact ha h
  · exact hb h

theorem direction_no_N (delta : JSVal) : 'N' ∉ (direction delta).data := by
  unfold direction
  split
  · decide
  · split
    · decide
    · decide

theorem fmtNum_null_inHg : fmtNum (presInHg JSVal.vnull) 1 = "0.0" := by
  show toFixed (0 * PRESSURE_HPA_TO_INHG) 1 = "0.0"
  have h : (0 : ℚ) * PRESSURE_HPA_TO_INHG = 0 := by ring
  rw [h]
  exact toFixed_zero_1

/-- C6: the displayed inches-of-mercury value equals the hectopascal value
times the fixed constant 0.02953 (exact in the rational model of the
numbers), the conversion of 1013.25 hPa lies within 0.01 of 29.92 inHg,
and the AppV2 current-pressure text displays both units through exactly
that conversion. -/
theorem pressure_conversion_linear :
    (∀ q : ℚ, presInHg (JSVal.vnum q) = JSVal.vnum (q * PRESSURE_HPA_TO_INHG)) ∧
    |(1013.25 : ℚ) * PRESSURE_HPA_TO_INHG - 29.92| ≤ 1 / 100 ∧
    ∀ (env : JsEnv) (s : Summary),
      (AppV2.renderKpis env s).curPres
        = fmtNum s.current.pressure_hpa 1 ++ " hPa / "
          ++ fmtNum (presInHg s.current.pressure_hpa) 1 ++ " inHg" := by
  refine ⟨fun q => rfl, ?_, fun env s => rfl⟩
  rw [abs_le]
  constructor
  · norm_num [PRESSURE_HPA_TO_INHG]
  · norm_num [PRESSURE_HPA_TO_INHG]

/-- C7: for every numeric pressure delta the direction word is "up" when
positive, "down" when negative and "flat" when zero; the magnitude passed
to the formatter is the absolute value, which is non-negative; and the
AppV2 delta KPI is assembled from exactly these two pieces. -/
theorem pressure_delta_direction :
    ∀ q : ℚ,
      (0 < q → direction (JSVal.vnum q) = "up") ∧
      (q < 0 → direction (JSVal.vnum q) = "down") ∧
      (q = 0 → direction (JSVal.vnum q) = "flat") ∧
      jsAbs (JSVal.vnum q) = JSVal.vnum |q| ∧ 0 ≤ |q| ∧
      ∀ (env : JsEnv) (s : Summary),
        (AppV2.renderKpis env s).presDelta
          = direction s.pressure_change_hpa ++ " "
            ++ fmtNum (jsAbs s.pressure_change_hpa) 1 ++ " hPa / "
            ++ fmtNum (jsAbs (jsMul s.pressure_change_hpa PRESSURE_HPA_TO_INHG)) 1
            ++ " inHg" := by
  intro q
  refine ⟨direction_num_pos q, direction_num_neg q, ?_, rfl, abs_nonneg q,
    fun env s => rfl⟩
  rintro rfl
  exact direction_num_zero

/-- Witness for C7 at the concrete deltas 1, -1 and 0. -/
theorem pressure_delta_direction_witness :
    direction (JSVal.vnum 1) = "up" ∧ direction (JSVal.vnum (-1)) = "down" ∧
    direction (JSVal.vnum 0) = "flat" :=
  ⟨(pressure_delta_direction 1).1 (by norm_num),
   (pressure_delta_direction (-1)).2.1 (by norm_num),
   (pressure_delta_direction 0).2.2.1 rfl⟩

/-- C8: with current readings 72.34 degrees and 45.6 percent, the
one-decimal refresh variants (the second src/static/app.js script and
src/unnamed/part_000) render the temperature KPI exactly "72.3 °F" and the
humidity KPI exactly "45.6 %". -/
theorem kpi_one_decimal_rendering :
    (AppV2.renderKpis env0 sample8).curTemp = "72.3 °F" ∧
    (AppV2.renderKpis env0 sample8).curHum = "45.6 %" ∧
    Part000.curTempText sample8 = "72.3 °F" ∧
    Part000.curHumText sample8 = "45.6 %" := by
  have h1 : fmtNum (JSVal.vnum (72.34 : ℚ)) 1 = "72.3" := toFixed_72_34_1
  have h2 : fmtNum (JSVal.vnum (45.6 : ℚ)) 1 = "45.6" := toFixed_45_6_1
  refine ⟨?_, ?_, ?_, ?_⟩
  · show fmtNum (JSVal.vnum (72.34 : ℚ)) 1 ++ " °F" = "72.3 °F"
    rw [h1]
    decide
  · show fmtNum (JSVal.vnum (45.6 : ℚ)) 1 ++ " %" = "45.6 %"
    rw [h2]
    decide
  · show fmtNum (JSVal.vnum (72.34 : ℚ)) 1 ++ " °F" = "72.3 °F"
    rw [h1]
    decide
  · show fmtNum (JSVal.vnum (45.6 : ℚ)) 1 ++ " %" = "45.6 %"
    rw [h2]
    decide

/-- The first src/static/app.js script formats the current readings with
two decimals, so the C8 scenario inputs render there as "72.34 °F" and
"45.60 %". -/
theorem appV1_renders_two_decimals :
    AppV1.curTempText sample8 = "72.34 °F" ∧ AppV1.curHumText sample8 = "45.60 %" := by
  have h1 : fmtNum (JSVal.vnum (72.34 : ℚ)) 2 = "72.34" := toFixed_72_34_2
  have h2 : fmtNum (JSVal.vnum (45.6 : ℚ)) 2 = "45.60" := toFixed_45_6_2
  constructor
  · show fmtNum (JSVal.vnum (72.34 : ℚ)) 2 ++ " °F" = "72.34 °F"
    rw [h1]
    decide
  · show fmtNum (JSVal.vnum (45.6 : ℚ)) 2 ++ " %" = "45.60 %"
    rw [h2]
    decide

/-- C9: a pressure change of -2.5 hPa renders exactly as "down 2.5 hPa" in
the Part000 delta line cited by the claim; the AppV2 variant renders the
same direction word and unsigned magnitude and appends the converted
inches value, giving "down 2.5 hPa / 0.1 inHg". -/
theorem pressure_delta_down_render :
    Part000.presDeltaText sample9 = "down 2.5 hPa" ∧
    (AppV2.renderKpis env0 sample9).presDelta = "down 2.5 hPa / 0.1 inHg" := by
  have hdir : direction (JSVal.vnum (-2.5 : ℚ)) = "down" :=
    direction_num_neg _ (by norm_num)
  have habs : |(-2.5 : ℚ)| = (2.5 : ℚ) := by
    rw [abs_of_nonpos (by norm_num)]
    norm_num
  have hmag : fmtNum (jsAbs (JSVal.vnum (-2.5 : ℚ))) 1 = "2.5" := by
    show toFixed (|(-2.5 : ℚ)|) 1 = "2.5"
    rw [habs]
    exact toFixed_2_5_1
  have hmul : (-2.5 : ℚ) * PRESSURE_HPA_TO_INHG = -(2953 / 40000 : ℚ) := by
    norm_num [PRESSURE_HPA_TO_INHG]
  have habs2 : |(-2.5 : ℚ) * PRESSURE_HPA_TO_INHG| = (2953 / 40000 : ℚ) := by
    rw [hmul, abs_of_nonpos (by norm_num)]
    norm_num
  have hmagIn :
      fmtNum (jsAbs (jsMul (JSVal.vnum (-2.5 : ℚ)) PRESSURE_HPA_TO_INHG)) 1 = "0.1" := by
    show toFixed (|(-2.5 : ℚ) * PRESSURE_HPA_TO_INHG|) 1 = "0.1"
    rw [habs2]
    exact toFixed_2953_40000_1
  constructor
  · show direction (JSVal.vnum (-2.5 : ℚ)) ++ " "
        ++ fmtNum (jsAbs (JSVal.vnum (-2.5 : ℚ))) 1 ++ " hPa" = "down 2.5 hPa"
    rw [hdir, hmag]
    decide
  · show direction (JSVal.vnum (-2.5 : ℚ)) ++ " "
        ++ fmtNum (jsAbs (JSVal.vnum (-2.5 : ℚ))) 1 ++ " hPa / "
        ++ fmtNum (jsAbs (jsMul (JSVal.vnum (-2.5 : ℚ)) PRESSURE_HPA_TO_INHG)) 1
        ++ " inHg" = "down 2.5 hPa / 0.1 inHg"
    rw [hdir, hmag, hmagIn]
    decide

/-- C10: a NaN pressure change renders without throwing: both comparisons
of the ternary are false so the direction falls through to "flat", the
magnitude formats as the placeholder, the Part000 delta KPI is exactly
"flat — hPa" and the AppV2 one is "flat — hPa / — inHg". -/
theorem nan_delta_renders_flat :
    direction JSVal.vnan = "flat" ∧
    jsGt JSVal.vnan (JSVal.vnum 0) = false ∧
    jsLt JSVal.vnan (JSVal.vnum 0) = false ∧
    fmtNum (jsAbs JSVal.vnan) 1 = "—" ∧
    Part000.presDeltaText sampleNaN = "flat — hPa" ∧
    (AppV2.renderKpis env0 sampleNaN).presDelta = "flat — hPa / — inHg" :=
  ⟨rfl, rfl, rfl, rfl, rfl, rfl⟩

/-- C2 counterexample: with a null current pressure the AppV2 pressure
line renders "— hPa / 0.0 inHg": the derived inches-of-mercury text is
"0.0", not the claimed placeholder, because JavaScript coerces null to 0
in the multiplication by the conversion constant. -/
theorem null_pressure_inHg_renders_zero :
    (AppV2.renderKpis env0 sampleNullPres).curPres = "— hPa / 0.0 inHg" ∧
    fmtNum (presInHg JSVal.vnull) 1 ≠ "—" := by
  constructor
  · show fmtNum JSVal.vnull 1 ++ " hPa / "
        ++ fmtNum (presInHg JSVal.vnull) 1 ++ " inHg" = "— hPa / 0.0 inHg"
    rw [fmtNum_null_inHg]
    decide
  · rw [fmtNum_null_inHg]
    decide

/-- C2 amended: every directly formatted null numeric field renders as the
placeholder and no current-reading KPI ever contains the letter of "NaN";
but the derived inches-of-mercury text of a null current pressure renders
"0.0" (null coerces to 0 under multiplication), while an undefined or NaN
pressure propagates to the placeholder. -/
theorem null_numeric_rendering_amended :
    ∀ (env : JsEnv) (s : Summary),
      (s.current.temp_f = JSVal.vnull → (AppV2.renderKpis env s).curTemp = "— °F") ∧
      (s.current.humidity_pct = JSVal.vnull → (AppV2.renderKpis env s).curHum = "— %") ∧
      (s.current.pressure_hpa = JSVal.vnull →
        (AppV2.renderKpis env s).curPres = "— hPa / 0.0 inHg") ∧
      ((s.current.pressure_hpa = JSVal.vundef ∨ s.current.pressure_hpa = JSVal.vnan) →
        (AppV2.renderKpis env s).curPres = "— hPa / — inHg") ∧
      (s.temp_24h_high.temp_f = JSVal.vnull → (AppV2.renderKpis env s).tHigh = "—") ∧
      (s.temp_24h_low.temp_f = JSVal.vnull → (AppV2.renderKpis env s).tLow = "—") ∧
      'N' ∉ ((AppV2.renderKpis env s).curTemp).data ∧
      'N' ∉ ((AppV2.renderKpis env s).curHum).data ∧
      'N' ∉ ((AppV2.renderKpis env s).curPres).data ∧
      'N' ∉ ((AppV2.renderKpis env s).presDelta).data := by
  intro env s
  refine ⟨?_, ?_, ?_, ?_, ?_, ?_, ?_, ?_, ?_, ?_⟩
  · intro h
    show fmtNum s.current.temp_f 1 ++ " °F" = "— °F"
    rw [h]
    decide
  · intro h
    show fmtNum s.current.humidity_pct 1 ++ " %" = "— %"
    rw [h]
    decide
  · intro h
    show fmtNum s.current.pressure_hpa 1 ++ " hPa / "
        ++ fmtNum (presInHg s.current.pressure_hpa) 1 ++ " inHg" = "— hPa / 0.0 inHg"
    rw [h, fmtNum_null_inHg]
    decide
  · rintro (h | h) <;>
      · show fmtNum s.current.pressure_hpa 1 ++ " hPa / "
            ++ fmtNum (presInHg s.current.pressure_hpa) 1 ++ " inHg" = "— hPa / — inHg"
        rw [h]
        decide
  · intro h
    show (if s.temp_24h_high.temp_f = JSVal.vnull then "—"
      else fmtNum s.temp_24h_high.temp_f 1 ++ " °F") = "—"
    rw [if_pos h]
  · intro h
    show (if s.temp_24h_low.temp_f = JSVal.vnull then "—"
      else fmtNum s.temp_24h_low.temp_f 1 ++ " °F") = "—"
    rw [if_pos h]
  · show 'N' ∉ (fmtNum s.current.temp_f 1 ++ " °F").data
    exact no_N_append _ _ (fmtNum_no_N _ _) (by decide)
  · show 'N' ∉ (fmtNum s.current.humidity_pct 1 ++ " %").data
    exact no_N_append _ _ (fmtNum_no_N _ _) (by decide)
  · show 'N' ∉ (fmtNum s.current.pressure_hpa 1 ++ " hPa / "
        ++ fmtNum (presInHg s.current.pressure_hpa) 1 ++ " inHg").data
    exact no_N_append _ _
      (no_N_append _ _
        (no_N_append _ _ (fmtNum_no_N _ _) (by decide)) (fmtNum_no_N _ _))
      (by decide)
  · show 'N' ∉ (direction s.pressure_change_hpa ++ " "
        ++ fmtNum (jsAbs s.pressure_change_hpa) 1 ++ " hPa / "
        ++ fmtNum (jsAbs (jsMul s.pressure_change_hpa PRESSURE_HPA_TO_INHG)) 1
        ++ " inHg").data
    exact no_N_append _ _
      (no_N_append _ _
        (no_N_append _ _
          (no_N_append _ _
            (no_N_append _ _ (direction_no_N _) (by decide))
            (fmtNum_no_N _ _))
          (by decide))
        (fmtNum_no_N _ _))
      (by decide)

/-- Witness for the amended C2 at the concrete null-pressure summary. -/
theorem null_numeric_rendering_amended_witness :
    (AppV2.renderKpis env0 sampleNullPres).curPres = "— hPa / 0.0 inHg" ∧
    'N' ∉ ((AppV2.renderKpis env0 sampleNullPres).curPres).data := by
  have h := null_numeric_rendering_amended env0 sampleNullPres
  exact ⟨h.2.2.1 rfl, h.2.2.2.2.2.2.2.2.1⟩

/-- C3: a non-success status on either response makes the refresh cycle
fail with the Error carrying that response status code and body text, and
a failed cycle renders nothing: chart handles and KPI texts are left
exactly as they were. -/
theorem fetch_failure_aborts_cycle :
    ∀ (e : AppV2.CycleEnv) (st : AppV2.ChartState),
      (respOk e.summaryResp = false →
        AppV2.runCycle e st = Except.error { message := httpErrMsg e.summaryResp }) ∧
      (∀ s, respOk e.summaryResp = true → e.summaryResp.json = some s →
        respOk e.tsResp = false →
        AppV2.runCycle e st = Except.error { message := httpErrMsg e.tsResp }) ∧
      (∀ (err : JsError) (p : AppV2.Page),
        AppV2.runCycle e p.charts = Except.error err →
        (AppV2.firstLoad e p).charts = p.charts ∧
        (AppV2.firstLoad e p).kpis = p.kpis ∧
        AppV2.timerTick e p = p) := by
  intro e st
  refine ⟨?_, ?_, ?_⟩
  · intro h
    simp [AppV2.runCycle, AppV2.refresh, getJSON, h]
  · intro s h1 hj h2
    simp [AppV2.runCycle, AppV2.refresh, getJSON, h1, hj, h2]
  · intro err p h
    refine ⟨?_, ?_, ?_⟩
    · simp [AppV2.firstLoad, h]
    · simp [AppV2.firstLoad, h]
    · simp [AppV2.timerTick, h]

/-- Witness for C3: the 500 summary response aborts the cycle with the
message "HTTP 500: boom", and the failed tick leaves the page unchanged. -/
theorem fetch_failure_aborts_cycle_witness :
    AppV2.runCycle envBad AppV2.initialPage.charts
      = Except.error { message := "HTTP 500: boom" } ∧
    AppV2.timerTick envBad pageAfterFirst = pageAfterFirst := by
  have h1 := (fetch_failure_aborts_cycle envBad AppV2.initialPage.charts).1 rfl
  have h2 := (fetch_failure_aborts_cycle envBad pageAfterFirst.charts).1 rfl
  exact ⟨h1,
    ((fetch_failure_aborts_cycle envBad pageAfterFirst.charts).2.2 _ pageAfterFirst h2).2.2⟩

/-- C4 counterexample: after a successful first cycle, an HTTP 500 on a
later cycle is swallowed by catch(console.error) — the status banner keeps
its "Last updated" text, so no error message is written for that cycle;
and a first-cycle failure writes the banner but leaves the 60-second
interval uninstalled, so no later cycle ever fires. -/
theorem later_cycle_error_leaves_banner :
    pageAfterFirst.intervalInstalled = true ∧
    AppV2.timerTick envBad pageAfterFirst = pageAfterFirst ∧
    pageAfterFirst.lastUpdated = "Last updated: 2024-01-01T12:00:00Z" ∧
    (AppV2.firstLoad envBad AppV2.initialPage).intervalInstalled = false ∧
    (AppV2.firstLoad envBad AppV2.initialPage).lastUpdated
      = "Error loading data: HTTP 500: boom" :=
  ⟨rfl, rfl, rfl, rfl, rfl⟩

/-- C4 amended: every cycle error is caught and never crashes the page,
and a failed cycle never touches existing charts or KPI texts; but the two
cases differ: a first-cycle error writes "Error loading data: ..." into
the banner and the 60-second interval is then never installed, so no later
cycle fires, while an error in a later cycle only reaches console.error —
banner, KPI texts and charts all stay unchanged — and a tick never changes
whether the interval is installed. -/
theorem cycle_error_handling_amended :
    ∀ (e : AppV2.CycleEnv) (p : AppV2.Page) (err : JsError),
      (AppV2.runCycle e AppV2.initialPage.charts = Except.error err →
        AppV2.firstLoad e AppV2.initialPage
          = { AppV2.initialPage with
              lastUpdated := "Error loading data: " ++ err.message }) ∧
      (p.intervalInstalled = true → AppV2.runCycle e p.charts = Except.error err →
        AppV2.timerTick e p = p) ∧
      (AppV2.timerTick e p).intervalInstalled = p.intervalInstalled := by
  intro e p err
  refine ⟨?_, ?_, ?_⟩
  · intro h
    simp [AppV2.firstLoad, h]
  · intro hi h
    simp [AppV2.timerTick, hi, h]
  · by_cases hi : p.intervalInstalled = true
    · simp only [AppV2.timerTick, hi, if_true]
      cases hrc : AppV2.runCycle e p.charts with
      | ok v =>
        obtain ⟨k, cs⟩ := v
        simp [hrc, hi]
      | error e1 => simp [hrc, hi]
    · simp [AppV2.timerTick, hi]

/-- Witness for the amended C4 at the concrete 500 cycle. -/
theorem cycle_error_handling_amended_witness :
    AppV2.firstLoad envBad AppV2.initialPage
      = { AppV2.initialPage with lastUpdated := "Error loading data: HTTP 500: boom" } ∧
    AppV2.timerTick envBad pageAfterFirst = pageAfterFirst := by
  have h := cycle_error_handling_amended envBad pageAfterFirst
    { message := "HTTP 500: boom" }
  exact ⟨h.1 rfl, h.2.1 rfl rfl⟩

/-! Preservation helpers for the chart lifecycle. -/

theorem sameBuild_update (c : Chart) (pts : List (Option String × JSVal)) :
    sameBuild c (chartUpdate c pts) :=
  ⟨rfl, rfl, rfl⟩

theorem sameBuild_trans {a b c : Chart} (h1 : sameBuild a b) (h2 : sameBuild b c) :
    sameBuild a c :=
  ⟨h1.1.trans h2.1, h1.2.1.trans h2.2.1, h1.2.2.trans h2.2.2⟩

theorem preservedFrom_refl (st : AppV2.ChartState) : preservedFrom st st := by
  constructor
  · intro t p h
    exact ⟨t, p, h, ⟨rfl, rfl, rfl⟩, ⟨rfl, rfl, rfl⟩⟩
  · intro a b c h
    exact ⟨a, b, c, h, ⟨rfl, rfl, rfl⟩, ⟨rfl, rfl, rfl⟩, ⟨rfl, rfl, rfl⟩⟩

theorem preservedFrom_trans {s1 s2 s3 : AppV2.ChartState}
    (h1 : preservedFrom s1 s2) (h2 : preservedFrom s2 s3) : preservedFrom s1 s3 := by
  constructor
  · intro t p h
    obtain ⟨t1, p1, hh, hb1, hb2⟩ := h1.1 t p h
    obtain ⟨t2, p2, hh2, hc1, hc2⟩ := h2.1 t1 p1 hh
    exact ⟨t2, p2, hh2, sameBuild_trans hb1 hc1, sameBuild_trans hb2 hc2⟩
  · intro a b c h
    obtain ⟨a1, b1, c1, hh, x1, x2, x3⟩ := h1.2 a b c h
    obtain ⟨a2, b2, c2, hh2, y1, y2, y3⟩ := h2.2 a1 b1 c1 hh
    exact ⟨a2, b2, c2, hh2, sameBuild_trans x1 y1, sameBuild_trans x2 y2,
      sameBuild_trans x3 y3⟩

theorem renderCharts_preserved (env : JsEnv) (ts : List Reading) (st : AppV2.ChartState) :
    preservedFrom st (AppV2.renderCharts env ts st) := by
  constructor
  · intro t p h
    refine ⟨chartUpdate t (temp24Points env ts), chartUpdate p (pres24Points env ts), ?_,
      sameBuild_update t _, sameBuild_update p _⟩
    simp [AppV2.renderCharts, h]
  · intro a b c h
    refine ⟨chartUpdate a (tempPoints ts), chartUpdate b (humPoints ts),
      chartUpdate c (presPoints ts), ?_, sameBuild_update a _, sameBuild_update b _,
      sameBuild_update c _⟩
    simp [AppV2.renderCharts, h]

theorem runCycle_ok_charts (e : AppV2.CycleEnv) (st : AppV2.ChartState)
    (k : AppV2.Kpis) (cs : AppV2.ChartState)
    (h : AppV2.runCycle e st = Except.ok (k, cs)) :
    ∃ ts, cs = AppV2.renderCharts e.js ts st := by
  unfold AppV2.runCycle AppV2.refresh at h
  cases h1 : getJSON e.summaryResp with
  | error e1 =>
    rw [h1] at h
    simp at h
  | ok s =>
    rw [h1] at h
    cases h2 : getJSON e.tsResp with
    | error e2 =>
      rw [h2] at h
      simp at h
    | ok ts =>
      rw [h2] at h
      simp only [Except.ok.injEq, Prod.mk.injEq] at h
      exact ⟨ts, h.2.symm⟩

theorem timerTick_preserved (e : AppV2.CycleEnv) (p : AppV2.Page) :
    preservedFrom p.charts (AppV2.timerTick e p).charts := by
  unfold AppV2.timerTick
  by_cases hi : p.intervalInstalled = true
  · rw [if_pos hi]
    cases hrc : AppV2.runCycle e p.charts with
    | error e1 => exact preservedFrom_refl _
    | ok v =>
      obtain ⟨k, cs⟩ := v
      obtain ⟨ts, hts⟩ := runCycle_ok_charts e p.charts k cs hrc
      show preservedFrom p.charts cs
      rw [hts]
      exact renderCharts_preserved e.js ts p.charts
  · rw [if_neg hi]
    exact preservedFrom_refl _

theorem runTicks_preserved (es : List AppV2.CycleEnv) :
    ∀ p : AppV2.Page, preservedFrom p.charts (AppV2.runTicks p es).charts := by
  induction es with
  | nil => intro p; exact preservedFrom_refl _
  | cons e t ih =>
    intro p
    exact preservedFrom_trans (timerTick_preserved e p) (ih (AppV2.timerTick e p))

/-- C5: from undefined handles the first rendering cycle constructs one
chart per metric and window (two hourly, three daily, each with its own
canvas, label and time unit); on every later cycle each existing chart is
updated in place — same construction identity, point array replaced,
redraw counter bumped — and over any run of timer ticks every chart handle
survives with its construction identity: no chart is recreated or
destroyed, only its data mutated. -/
theorem charts_created_once_then_mutated :
    ∀ (env : JsEnv) (ts : List Reading) (st : AppV2.ChartState),
      (st.charts24 = none →
        (AppV2.renderCharts env ts st).charts24
          = some (buildLineChart "chartTemp24" (temp24Points env ts) "Temp (°F)" "hour",
              buildLineChart "chartPres24" (pres24Points env ts) "Pressure (hPa)" "hour")) ∧
      (st.charts7 = none →
        (AppV2.renderCharts env ts st).charts7
          = some (buildLineChart "chartTemp" (tempPoints ts) "Temp (°F)" "day",
              buildLineChart "chartHum" (humPoints ts) "Humidity (%)" "day",
              buildLineChart "chartPres" (presPoints ts) "Pressure (hPa)" "day")) ∧
      (∀ t p, st.charts24 = some (t, p) →
        (AppV2.renderCharts env ts st).charts24
          = some (chartUpdate t (temp24Points env ts),
              chartUpdate p (pres24Points env ts))) ∧
      (∀ a b c, st.charts7 = some (a, b, c) →
        (AppV2.renderCharts env ts st).charts7
          = some (chartUpdate a (tempPoints ts), chartUpdate b (humPoints ts),
              chartUpdate c (presPoints ts))) ∧
      preservedFrom st (AppV2.renderCharts env ts st) ∧
      ∀ (es : List AppV2.CycleEnv) (p : AppV2.Page),
        preservedFrom p.charts (AppV2.runTicks p es).charts := by
  intro env ts st
  refine ⟨?_, ?_, ?_, ?_, renderCharts_preserved env ts st,
    fun es p => runTicks_preserved es p⟩
  · intro h
    simp [AppV2.renderCharts, h]
  · intro h
    simp [AppV2.renderCharts, h]
  · intro t p h
    simp [AppV2.renderCharts, h]
  · intro a b c h
    simp [AppV2.renderCharts, h]

/-- Witness for C5: creation from undefined handles and in-place update of
the created charts, at the empty timeseries. -/
theorem charts_created_once_then_mutated_witness :
    (AppV2.renderCharts env0 [] { charts24 := none, charts7 := none }).charts24
      = some (buildLineChart "chartTemp24" (temp24Points env0 []) "Temp (°F)" "hour",
          buildLineChart "chartPres24" (pres24Points env0 []) "Pressure (hPa)" "hour") ∧
    (AppV2.renderCharts env0 [] stInit).charts24
      = some (chartUpdate
            (buildLineChart "chartTemp24" (temp24Points env0 []) "Temp (°F)" "hour")
            (temp24Points env0 []),
          chartUpdate
            (buildLineChart "chartPres24" (pres24Points env0 []) "Pressure (hPa)" "hour")
            (pres24Points env0 [])) := by
  have h1 := charts_created_once_then_mutated env0 [] { charts24 := none, charts7 := none }
  have h2 := charts_created_once_then_mutated env0 [] stInit
  exact ⟨h1.1 rfl,
    h2.2.2.1 (buildLineChart "chartTemp24" (temp24Points env0 []) "Temp (°F)" "hour")
      (buildLineChart "chartPres24" (pres24Points env0 []) "Pressure (hPa)" "hour") rfl⟩
